import Mathlib

/-!
Verification of the request-serialization queue of a Telegram scraping
service.  The definitions below embed the behaviour of the class
TelegramScraperQueue in src/app/scraper.py: its start/stop lifecycle, the
single worker loop that processes queued tasks one at a time, the
reconnect logic with bounded connect attempts and fixed backoff, and the
two task bodies (fetching the last 24 hours of messages from a channel,
and resolving a channel reference to a numeric channel id).  The theorems
settle the specified properties of those functions.
-/

namespace Scraper

/-- A Python value of the kinds that flow through the channel-selection
expression at scraper.py line 101 (a string, an int, or None). -/
inductive PyVal where
  | none
  | str (s : String)
  | int (n : Int)
deriving DecidableEq, Repr

/-- Python truthiness for the values of PyVal: None is falsy, a string is
truthy iff it is nonempty, an int is truthy iff it is nonzero. -/
def PyVal.truthy : PyVal → Bool
  | .none => false
  | .str s => s != ""
  | .int n => n != 0

/-- Python's short-circuit or on values: the first operand if it is
truthy, otherwise the second, as in channel_name or channel_id
(scraper.py line 101). -/
def pyOr (a b : PyVal) : PyVal :=
  if a.truthy then a else b

/-- A message as yielded by the client's iter_messages primitive: its id,
its text (which may be absent, empty, or non-empty) and its date,
modelled as seconds relative to an arbitrary epoch (the code compares
timezone-aware datetimes). -/
structure TMessage where
  id : Int
  text : Option String
  date : Int
deriving DecidableEq, Repr

/-- Seconds in 24 hours, the timedelta(hours=24) subtracted from the call
time at scraper.py line 106 to obtain the cutoff. -/
def hours24 : Int := 24 * 3600

/-- The message-collection loop of _get_today_messages (scraper.py lines
117-130): walk the yielded stream in order; break at the first message
whose date is strictly before the cutoff; skip a message whose text is
None or the empty string; otherwise record the message as its id/text
pair. -/
def collectMessages (cutoff : Int) : List TMessage → List (Int × String)
  | [] => []
  | m :: ms =>
    if m.date < cutoff then []
    else
      match m.text with
      | Option.none => collectMessages cutoff ms
      | some t =>
        if t = "" then collectMessages cutoff ms
        else (m.id, t) :: collectMessages cutoff ms

/-- The arguments the code passes to client.iter_messages at scraper.py
lines 117-121: the selected entity, limit=100, and offset_date set to the
call time. -/
structure IterCall where
  entity : PyVal
  limit : Nat
  offsetDate : Int
deriving DecidableEq, Repr

/-- The dictionary _get_today_messages returns (scraper.py lines
108-114): the meta block holding the selected channel entity and the
call-time date, and the list of kept messages. -/
structure MessagesResult where
  metaChannelId : PyVal
  metaDate : Int
  messages : List (Int × String)
deriving DecidableEq, Repr

/-- _get_today_messages (scraper.py lines 96-132), taking the call time
now and the stream of messages the iteration primitive yields for the
recorded call (at most limit messages, in time-descending order — an
external contract of the client library).  Returns the recorded
iter_messages call and the result dictionary. -/
def getTodayMessages (now : Int) (channelName channelId : PyVal)
    (stream : List TMessage) : IterCall × MessagesResult :=
  let channelEntity := pyOr channelName channelId
  let cutoff := now - hours24
  (⟨channelEntity, 100, now⟩,
   ⟨channelEntity, now, collectMessages cutoff stream⟩)

/-- The entity returned by client.get_entity as used by _get_channel_id:
its raw numeric id, its optional username, and whether the megagroup and
broadcast attributes exist on the object (the code tests them with
hasattr; the platform library puts both attributes exactly on
channel-like entities, i.e. broadcast channels and supergroups). -/
structure TEntity where
  id : Nat
  username : Option String
  hasMegagroup : Bool
  hasBroadcast : Bool
deriving DecidableEq, Repr

/-- Embeds the conversion at scraper.py line 150,
int(f"-100{channel_id}"): the decimal rendering of the raw id is
prepended with the characters 1, 0, 0 after the minus sign, and the
resulting digit string is parsed back as a (negative) integer. -/
def neg100Concat (n : Nat) : Int :=
  -(String.toNat! ("100" ++ Nat.repr n) : Int)

/-- _get_channel_id (scraper.py lines 137-153): resolve the entity; if it
carries a megagroup or broadcast attribute, renormalize the raw id into
the -100-prefixed channel format; return the id together with the
username. -/
def getChannelId (entity : TEntity) : Int × Option String :=
  let channelId : Int := entity.id
  let channelId :=
    if entity.hasMegagroup || entity.hasBroadcast then neg100Concat entity.id
    else channelId
  (channelId, entity.username)

instance {α β : Type} [DecidableEq α] [DecidableEq β] : DecidableEq (Except α β) := fun a b =>
  match a, b with
  | .ok x, .ok y =>
    if h : x = y then .isTrue (congrArg Except.ok h)
    else .isFalse (fun hc => h (Except.ok.inj hc))
  | .error x, .error y =>
    if h : x = y then .isTrue (congrArg Except.error h)
    else .isFalse (fun hc => h (Except.error.inj hc))
  | .ok _, .error _ => .isFalse (fun hc => Except.noConfusion hc)
  | .error _, .ok _ => .isFalse (fun hc => Except.noConfusion hc)

/-- A queued task, as the tuple put on the asyncio.Queue at scraper.py
line 81: an identifier standing for its future, and the outcome that
awaiting task_func(client, *args, **kwargs) produces — a returned value
or a raised exception. -/
structure QTask where
  id : Nat
  run : Except String String
deriving DecidableEq, Repr

/-- A resolution performed on a task's future: set_result with a value,
or set_exception with the raised exception. -/
inductive Resolution where
  | value (v : String)
  | error (e : String)
deriving DecidableEq, Repr

/-- How the worker resolves one dequeued task (scraper.py lines 62-67):
on success set_result with the returned value, on a raised exception
set_exception with exactly that exception. -/
def resolveTask (t : QTask) : Nat × Resolution :=
  match t.run with
  | .ok v => (t.id, .value v)
  | .error e => (t.id, .error e)

/-- The worker's processing of a finite run of queued tasks (scraper.py
lines 60-69): dequeue in FIFO order, execute, resolve the future with the
value or with the raised exception, and continue with the next task
either way. -/
def processTasks : List QTask → List (Nat × Resolution)
  | [] => []
  | t :: ts =>
    match t.run with
    | .ok v => (t.id, .value v) :: processTasks ts
    | .error e => (t.id, .error e) :: processTasks ts

/-- await self.queue.put(...) (scraper.py line 81): asyncio.Queue is
FIFO, so a put appends at the tail. -/
def enqueue (q : List QTask) (t : QTask) : List QTask :=
  q ++ [t]

/-- The await points at which the worker coroutine _process_queue can be
suspended when control is elsewhere: the bounded connect attempt (line
49), the backoff sleep (lines 53 and 57), the wait for the next task at
queue.get (line 61), and the execution of the dequeued task (line 63). -/
inductive AwaitPoint where
  | connecting
  | backoff
  | queueGet
  | execTask (t : QTask)
deriving DecidableEq, Repr

/-- The observable state of a TelegramScraperQueue instance: the running
flag, whether the client is connected, the queued tasks in FIFO order,
the resolutions performed on task futures so far (in order), and the
worker task together with its current suspension point (none: no live
worker task). -/
structure ScraperState where
  running : Bool
  connected : Bool
  queue : List QTask
  resolutions : List (Nat × Resolution)
  worker : Option AwaitPoint
deriving DecidableEq, Repr

/-- start (scraper.py lines 17-25): if already running, return
immediately without touching anything; otherwise connect the client, set
the running flag and spawn the worker task, whose next suspension point
is the queue.get wait. -/
def start (s : ScraperState) : ScraperState :=
  if s.running then s
  else { s with connected := true, running := true, worker := some .queueGet }

/-- Delivery of the CancelledError that self.worker_task.cancel()
(scraper.py line 34) raises inside the worker coroutine at its current
suspension point.  At the connect wait or the backoff sleep (lines 49,
53, 57) the error is not caught — the handlers there catch TimeoutError
and Exception, and CancelledError is not an Exception — so it propagates
out of the coroutine.  At queue.get (line 61) it is caught by the
handler at line 70, which breaks out of the loop.  During a task
execution (line 63) the inner handler at line 65 catches only Exception,
so set_exception is not called, the finally clause runs task_done, and
the error reaches the line-70 handler, which breaks.  In every case the
worker terminates and no pending future is resolved on the way out. -/
def cancelWorker (s : ScraperState) : ScraperState :=
  match s.worker with
  | Option.none => s
  | some .connecting => { s with worker := Option.none }
  | some .backoff => { s with worker := Option.none }
  | some .queueGet => { s with worker := Option.none }
  | some (.execTask _) => { s with worker := Option.none }

/-- stop (scraper.py lines 27-41): if not running, return immediately;
otherwise clear the running flag, cancel the worker task and await it
(swallowing its CancelledError), then disconnect the client.  Nothing in
stop touches the queued tasks or resolves any future. -/
def stop (s : ScraperState) : ScraperState :=
  if s.running then
    let s1 := { s with running := false }
    let s2 := cancelWorker s1
    { s2 with connected := false }
  else s

/-- The outcome the environment gives the awaited connect attempt
asyncio.wait_for(self.client.connect(), timeout=10) at scraper.py line
49: it completes, times out, or raises. -/
inductive ConnectOutcome where
  | success
  | timeout
  | failure (msg : String)
deriving DecidableEq, Repr

/-- The externally visible awaits the worker performs during one loop
iteration. -/
inductive WorkerEvent where
  | connectAttempt (timeoutSecs : Nat)
  | sleepFor (secs : Nat)
  | dequeued (taskId : Nat)
deriving DecidableEq, Repr

/-- How one iteration of the worker's while loop ended: the loop exited
(running flag cleared), the iteration retried after a failed connect
without dequeuing, the worker stayed suspended on an empty queue, or it
dequeued and resolved one task. -/
inductive StepResult where
  | exited
  | retry
  | idle
  | ran (taskId : Nat)
deriving DecidableEq, Repr

/-- The dequeue-and-execute phase of one worker iteration (scraper.py
lines 60-69): take the head of the FIFO queue, execute it and append the
resolution of its future; with an empty queue the worker suspends at
queue.get. -/
def workerDequeue (s : ScraperState) (evs : List WorkerEvent) :
    ScraperState × List WorkerEvent × StepResult :=
  match s.queue with
  | [] => (s, evs, .idle)
  | t :: rest =>
    ({ s with queue := rest, resolutions := s.resolutions ++ [resolveTask t] },
     evs ++ [.dequeued t.id], .ran t.id)

/-- One iteration of the while loop of _process_queue (scraper.py lines
45-73) without external cancellation; the parameter co is the outcome the
environment gives the connect attempt, consulted only when the client is
not connected.  If the running flag is cleared the loop exits (line 45).
If the client is not connected, a connect bounded by a 10 second timeout
is attempted; on timeout or on any exception the worker sleeps 5 seconds
and continues without dequeuing anything (lines 46-58).  Otherwise the
next task is dequeued and resolved (lines 60-69). -/
def workerIter (s : ScraperState) (co : ConnectOutcome) :
    ScraperState × List WorkerEvent × StepResult :=
  if s.running then
    if s.connected then
      workerDequeue s []
    else
      match co with
      | .success => workerDequeue { s with connected := true } [.connectAttempt 10]
      | .timeout => (s, [.connectAttempt 10, .sleepFor 5], .retry)
      | .failure _ => (s, [.connectAttempt 10, .sleepFor 5], .retry)
  else (s, [], .exited)

/-- Repeated worker iterations, one per connect outcome supplied,
collecting each iteration's events and result. -/
def workerIters (s : ScraperState) :
    List ConnectOutcome → ScraperState × List (List WorkerEvent × StepResult)
  | [] => (s, [])
  | co :: cos =>
    let (s1, evs, r) := workerIter s co
    let (s2, tr) := workerIters s1 cos
    (s2, (evs, r) :: tr)

/-- The numeric value a decimal digit character produced by Nat.digitChar
decodes to under the fold inside the string-to-number parse. -/
theorem digitChar_val {d : Nat} (h : d < 10) :
    (Nat.digitChar d).toNat - '0'.toNat = d := by
  interval_cases d <;> rfl

/-- Digit characters produced by Nat.digitChar for values below 10 are
digit characters. -/
theorem digitChar_isDigit {d : Nat} (h : d < 10) :
    (Nat.digitChar d).isDigit = true := by
  interval_cases d <;> rfl

/-- The character list Nat.toDigitsCore renders, for sufficient fuel, is
the base-10 digit list of n (big-endian) in front of the accumulator. -/
theorem toDigitsCore_eq (n : Nat) : ∀ (fuel : Nat) (acc : List Char),
    0 < n → n ≤ fuel →
    Nat.toDigitsCore 10 fuel n acc
      = ((Nat.digits 10 n).reverse.map Nat.digitChar) ++ acc := by
  induction n using Nat.strong_induction_on with
  | _ n ih =>
    intro fuel acc hn hfuel
    match fuel with
    | 0 => omega
    | f + 1 =>
      rw [Nat.digits_def' (by norm_num : (1 : Nat) < 10) hn]
      simp only [Nat.toDigitsCore]
      by_cases hdiv : n / 10 = 0
      · simp [hdiv]
      · have h1 : 0 < n / 10 := Nat.pos_of_ne_zero hdiv
        have hlt : n / 10 < n := Nat.div_lt_self hn (by norm_num)
        have h2 : n / 10 ≤ f := by omega
        rw [if_neg hdiv, ih (n / 10) hlt f (Nat.digitChar (n % 10) :: acc) h1 h2]
        simp

/-- Folding the decimal parse step over a big-endian list of digit
characters extends the accumulator by the digits' value. -/
theorem foldl_digitChars (ds : List Nat) : ∀ (a : Nat), (∀ d ∈ ds, d < 10) →
    List.foldl (fun n c => n * 10 + (c.toNat - '0'.toNat)) a (ds.map Nat.digitChar)
      = a * 10 ^ ds.length + Nat.ofDigits 10 ds.reverse := by
  induction ds with
  | nil => intro a _; simp
  | cons d ds ih =>
    intro a h
    have hd : d < 10 := h d (by simp)
    simp only [List.map_cons, List.foldl_cons, List.length_cons, List.reverse_cons]
    rw [digitChar_val hd, ih (a * 10 + d) (fun x hx => h x (List.mem_cons_of_mem _ hx))]
    rw [Nat.ofDigits_append]
    simp only [Nat.ofDigits_singleton, List.length_reverse]
    ring

/-- The decimal rendering Nat.repr produces: a nonempty list of digit
characters, below 10 in value, that reads back as n. -/
theorem repr_digit_list (n : Nat) :
    ∃ ds : List Nat, (∀ d ∈ ds, d < 10) ∧ ds ≠ []
      ∧ (Nat.repr n).data = ds.map Nat.digitChar
      ∧ Nat.ofDigits 10 ds.reverse = n := by
  by_cases hn : n = 0
  · subst hn
    exact ⟨[0], by simp, by simp, rfl, by simp⟩
  · refine ⟨(Nat.digits 10 n).reverse, ?_, ?_, ?_, ?_⟩
    · intro d hd
      exact Nat.digits_lt_base (by norm_num) (List.mem_reverse.mp hd)
    · simp [Nat.digits_ne_nil_iff_ne_zero.mpr hn]
    · have hrepr : (Nat.repr n).data = Nat.toDigitsCore 10 (n + 1) n [] := rfl
      rw [hrepr, toDigitsCore_eq n (n + 1) [] (Nat.pos_of_ne_zero hn) (by omega)]
      simp
    · rw [List.reverse_reverse]
      exact Nat.ofDigits_digits 10 n

/-- Parsing the decimal rendering of n prefixed with the digit characters
1, 0, 0 yields 100 shifted past all the digits of n, plus n: the prefix
is applied without truncating any leading digit. -/
theorem toNat_append_repr (n : Nat) :
    String.toNat! ("100" ++ Nat.repr n) = 100 * 10 ^ (Nat.repr n).length + n := by
  obtain ⟨ds, hlt, hne, hdata, hval⟩ := repr_digit_list n
  have hsdata : ("100" ++ Nat.repr n).data = '1' :: '0' :: '0' :: ds.map Nat.digitChar := by
    rw [String.data_append, hdata]
    rfl
  have hemp : ("100" ++ Nat.repr n).isEmpty = false := by
    cases h : ("100" ++ Nat.repr n).isEmpty with
    | false => rfl
    | true =>
      have h2 := (String.isEmpty_iff _).mp h
      have h3 := congrArg String.data h2
      rw [hsdata] at h3
      simp at h3
  have hall : ("100" ++ Nat.repr n).all (·.isDigit) = true := by
    rw [String.all_eq, hsdata]
    simp only [List.all_cons, Bool.and_eq_true, List.all_eq_true]
    refine ⟨rfl, rfl, rfl, ?_⟩
    intro c hc
    obtain ⟨d, hd, rfl⟩ := List.mem_map.mp hc
    exact digitChar_isDigit (hlt d hd)
  have hisNat : ("100" ++ Nat.repr n).isNat = true := by
    simp [String.isNat, hemp, hall]
  have hlen : (Nat.repr n).length = ds.length := by
    have : (Nat.repr n).data.length = (ds.map Nat.digitChar).length := by rw [hdata]
    simpa using this
  unfold String.toNat!
  rw [hisNat]
  simp only [if_true]
  rw [String.foldl_eq, hsdata]
  have hstep :
      List.foldl (fun n c => n * 10 + (c.toNat - '0'.toNat)) 0
          ('1' :: '0' :: '0' :: ds.map Nat.digitChar)
        = List.foldl (fun n c => n * 10 + (c.toNat - '0'.toNat)) 100
          (ds.map Nat.digitChar) := rfl
  rw [hstep, foldl_digitChars ds 100 hlt, hval, hlen]

/-- C4: for every resolved entity, exactly when it carries the
channel-like capability attributes (megagroup or broadcast), the returned
numeric id is the raw id prefixed with -100, computed over the full digit
string of the raw id (no leading digits truncated); otherwise the raw id
is returned unchanged; the optional username is returned alongside in
both cases.  In particular raw id 123 with a channel-like flag yields
-100123. -/
theorem channel_id_normalization (e : TEntity) :
    (getChannelId e
      = (if e.hasMegagroup || e.hasBroadcast
          then -((100 : Int) * 10 ^ (Nat.repr e.id).length + e.id)
          else (e.id : Int),
        e.username))
    ∧ getChannelId ⟨123, Option.none, false, true⟩ = (-100123, Option.none) := by
  constructor
  · unfold getChannelId neg100Concat
    by_cases h : (e.hasMegagroup || e.hasBroadcast) = true
    · simp only [h, if_true, toNat_append_repr, Prod.mk.injEq]
      refine ⟨?_, trivial⟩
      push_cast
      ring
    · simp [h]
  · have h := toNat_append_repr 123
    rw [show (Nat.repr 123).length = 3 from rfl] at h
    norm_num at h
    simp [getChannelId, neg100Concat, h]

/-- Folding enqueue over a batch of submissions appends them, in
submission order, behind the existing queue. -/
theorem enqueue_foldl (ts : List QTask) : ∀ (q : List QTask),
    List.foldl enqueue q ts = q ++ ts := by
  induction ts with
  | nil => intro q; simp
  | cons t ts ih =>
    intro q
    simp [enqueue, ih]

/-- The worker's run over a finite queue resolves exactly the queued
tasks, each once, in queue order. -/
theorem processTasks_eq_map (ts : List QTask) :
    processTasks ts = ts.map resolveTask := by
  induction ts with
  | nil => rfl
  | cons t ts ih =>
    cases h : t.run with
    | ok v => simp [processTasks, h, ih, resolveTask]
    | error e => simp [processTasks, h, ih, resolveTask]

/-- C5: tasks submitted in order T1…Tn form the queue in exactly that
order (each put appends at the tail), and the single worker dequeues and
resolves them in exactly that order, so the sequence of resolved task
identities equals the sequence of enqueued task identities. -/
theorem fifo_order (ts : List QTask) :
    List.foldl enqueue [] ts = ts
    ∧ (processTasks ts).map Prod.fst = ts.map QTask.id := by
  constructor
  · simpa using enqueue_foldl ts []
  · rw [processTasks_eq_map]
    induction ts with
    | nil => rfl
    | cons t ts ih =>
      cases h : t.run with
      | ok v => simp [resolveTask, h, ih]
      | error e => simp [resolveTask, h, ih]

/-- C6: a task whose execution raises e is resolved with exactly that
error; the worker keeps going, so every queued task — before or after the
failing one — still receives exactly one resolution, in order, with no
retry of the failed task. -/
theorem task_failure_isolated (ts : List QTask) (i : Nat) (t : QTask) (e : String)
    (hi : ts[i]? = some t) (he : t.run = Except.error e) :
    (processTasks ts)[i]? = some (t.id, Resolution.error e)
    ∧ (processTasks ts).length = ts.length
    ∧ ∀ (j : Nat) (u : QTask), ts[j]? = some u →
        (processTasks ts)[j]? = some (resolveTask u) := by
  refine ⟨?_, ?_, ?_⟩
  · rw [processTasks_eq_map, List.getElem?_map, hi]
    simp [resolveTask, he]
  · rw [processTasks_eq_map]
    simp
  · intro j u hj
    rw [processTasks_eq_map, List.getElem?_map, hj]
    rfl

/-- C6 witness: in a queue of two tasks where the first raises, the first
future is resolved with that exact error and the second task is still
processed. -/
theorem task_failure_isolated_witness :
    (processTasks [⟨1, Except.error "boom"⟩, ⟨2, Except.ok "fine"⟩])[0]?
      = some (1, Resolution.error "boom")
    ∧ (processTasks [⟨1, Except.error "boom"⟩, ⟨2, Except.ok "fine"⟩]).length = 2 :=
  ⟨(task_failure_isolated [⟨1, Except.error "boom"⟩, ⟨2, Except.ok "fine"⟩]
      0 ⟨1, Except.error "boom"⟩ "boom" rfl rfl).1,
   (task_failure_isolated [⟨1, Except.error "boom"⟩, ⟨2, Except.ok "fine"⟩]
      0 ⟨1, Except.error "boom"⟩ "boom" rfl rfl).2.1⟩

/-- C8: over a stream that lies inside the 24-hour window, the result
keeps precisely the messages whose text is present and non-empty, each
recorded as its id/text pair; messages with absent or empty text are
dropped with no placeholder. -/
theorem empty_text_filtering (cutoff : Int) (ms : List TMessage)
    (h : ∀ m ∈ ms, cutoff ≤ m.date) :
    collectMessages cutoff ms
      = ms.filterMap (fun m =>
          match m.text with
          | Option.none => Option.none
          | some t => if t = "" then Option.none else some (m.id, t)) := by
  induction ms with
  | nil => rfl
  | cons m ms ih =>
    have hm : ¬ m.date < cutoff := not_lt.mpr (h m (by simp))
    have hrest := ih (fun x hx => h x (List.mem_cons_of_mem _ hx))
    cases htext : m.text with
    | none => simp [collectMessages, hm, htext, hrest, List.filterMap_cons]
    | some t =>
      by_cases ht : t = "" <;>
        simp [collectMessages, hm, htext, hrest, ht, List.filterMap_cons]

/-- C8 witness: a concrete in-window stream with one non-empty text, one
empty text and one absent text keeps exactly the first message. -/
theorem empty_text_filtering_witness :
    collectMessages 0
      [⟨1, some "hello", 5⟩, ⟨2, some "", 4⟩, ⟨3, Option.none, 3⟩]
      = [(1, "hello")] :=
  (empty_text_filtering 0
    [⟨1, some "hello", 5⟩, ⟨2, some "", 4⟩, ⟨3, Option.none, 3⟩]
    (by decide)).trans (by decide)

/-- C9: start when already running returns the state unchanged, starting
twice has the same observable effect as starting once, and stop when not
running returns the state unchanged. -/
theorem start_stop_idempotent (s : ScraperState) :
    (s.running = true → start s = s)
    ∧ start (start s) = start s
    ∧ (s.running = false → stop s = s) := by
  refine ⟨fun h => by simp [start, h], ?_, fun h => by simp [stop, h]⟩
  by_cases h : s.running
  · simp [start, h]
  · simp [start, h]

/-- C9 witness: a running state is unchanged by start, starting twice
from a stopped state equals starting once, and stop on a non-running
state is a no-op. -/
theorem start_stop_idempotent_witness :
    start ⟨true, true, [], [], some AwaitPoint.queueGet⟩
      = ⟨true, true, [], [], some AwaitPoint.queueGet⟩
    ∧ start (start ⟨false, false, [], [], Option.none⟩)
      = start ⟨false, false, [], [], Option.none⟩
    ∧ stop ⟨false, false, [], [], Option.none⟩ = ⟨false, false, [], [], Option.none⟩ :=
  ⟨(start_stop_idempotent ⟨true, true, [], [], some AwaitPoint.queueGet⟩).1 rfl,
   (start_stop_idempotent ⟨false, false, [], [], Option.none⟩).2.1,
   (start_stop_idempotent ⟨false, false, [], [], Option.none⟩).2.2 rfl⟩

/-- C10: the fetch selects its target entity as channel_name or-else
channel_id by Python truthiness; whenever the name is falsy (None or the
empty string) the id argument is selected instead, and the selected value
is also exactly what is written into the result's meta channel_id
field. -/
theorem channel_selection_truthiness (now : Int) (name id : PyVal)
    (stream : List TMessage) :
    (getTodayMessages now name id stream).1.entity = pyOr name id
    ∧ (getTodayMessages now name id stream).2.metaChannelId = pyOr name id
    ∧ (name.truthy = false → pyOr name id = id)
    ∧ pyOr (PyVal.str "") id = id := by
  refine ⟨rfl, rfl, fun h => by simp [pyOr, h], ?_⟩
  have h : (PyVal.str "").truthy = false := by decide
  simp [pyOr, h]

/-- C10 witness: fetch-by-name with the empty string name and an absent
id selects the id argument (None), both as the queried entity and as the
meta channel_id of the result. -/
theorem channel_selection_truthiness_witness :
    (getTodayMessages 0 (PyVal.str "") PyVal.none []).1.entity = PyVal.none
    ∧ (getTodayMessages 0 (PyVal.str "") PyVal.none []).2.metaChannelId = PyVal.none
    ∧ pyOr (PyVal.str "") PyVal.none = PyVal.none :=
  ⟨((channel_selection_truthiness 0 (PyVal.str "") PyVal.none []).1).trans
     ((channel_selection_truthiness 0 (PyVal.str "") PyVal.none []).2.2.1 (by decide)),
   ((channel_selection_truthiness 0 (PyVal.str "") PyVal.none []).2.1).trans
     ((channel_selection_truthiness 0 (PyVal.str "") PyVal.none []).2.2.1 (by decide)),
   (channel_selection_truthiness 0 (PyVal.str "") PyVal.none []).2.2.1 (by decide)⟩

/-- C1 counterexample: stopping a running queue holding two pending tasks
(worker suspended at the queue.get wait) terminates the worker but
resolves neither task — the resolutions list stays empty and the two
tasks are still sitting in the queue.  Nothing in the code constructs a
shutdown error: there is no shutdown-rejection resolution at all. -/
theorem stop_drain_counterexample :
    (stop ⟨true, true, [⟨1, Except.ok "r1"⟩, ⟨2, Except.ok "r2"⟩], [],
        some AwaitPoint.queueGet⟩).resolutions = []
    ∧ (stop ⟨true, true, [⟨1, Except.ok "r1"⟩, ⟨2, Except.ok "r2"⟩], [],
        some AwaitPoint.queueGet⟩).worker = Option.none
    ∧ (stop ⟨true, true, [⟨1, Except.ok "r1"⟩, ⟨2, Except.ok "r2"⟩], [],
        some AwaitPoint.queueGet⟩).queue
      = [⟨1, Except.ok "r1"⟩, ⟨2, Except.ok "r2"⟩] := by
  decide

/-- C1 amended: stop on a running queue terminates the worker, clears the
running flag and disconnects, but performs no resolution at all: the
tasks still sitting in the queue keep their pending results unresolved
(no shutdown-error resolution is produced). -/
theorem stop_leaves_pending_unresolved (s : ScraperState) (h : s.running = true) :
    (stop s).resolutions = s.resolutions
    ∧ (stop s).queue = s.queue
    ∧ (stop s).worker = Option.none
    ∧ (stop s).running = false
    ∧ (stop s).connected = false := by
  unfold stop
  rw [if_pos h]
  cases hw : s.worker with
  | none => simp [cancelWorker, hw]
  | some p => cases p <;> simp [cancelWorker, hw]

/-- C1 amended witness: stopping a running queue with one pending task
leaves that task queued and unresolved while the worker is gone. -/
theorem stop_leaves_pending_unresolved_witness :
    (stop ⟨true, true, [⟨5, Except.ok "v"⟩], [], some AwaitPoint.queueGet⟩).resolutions = []
    ∧ (stop ⟨true, true, [⟨5, Except.ok "v"⟩], [], some AwaitPoint.queueGet⟩).queue
      = [⟨5, Except.ok "v"⟩]
    ∧ (stop ⟨true, true, [⟨5, Except.ok "v"⟩], [], some AwaitPoint.queueGet⟩).worker
      = Option.none
    ∧ (stop ⟨true, true, [⟨5, Except.ok "v"⟩], [], some AwaitPoint.queueGet⟩).running = false
    ∧ (stop ⟨true, true, [⟨5, Except.ok "v"⟩], [], some AwaitPoint.queueGet⟩).connected
      = false :=
  stop_leaves_pending_unresolved
    ⟨true, true, [⟨5, Except.ok "v"⟩], [], some AwaitPoint.queueGet⟩ rfl

/-- C2 counterexample: stopping while task 7 is executing (the worker is
suspended inside the task's own await, not at the wait-for-next-task
point) terminates the worker with no resolution at all: the caller
receives neither the task's real result nor any error, because the
cancellation lands inside the task's execution and the inner handler
catches only Exception, not CancelledError. -/
theorem stop_in_flight_counterexample :
    (stop ⟨true, true, [], [], some (AwaitPoint.execTask ⟨7, Except.ok "payload"⟩)⟩).resolutions
      = []
    ∧ (stop ⟨true, true, [], [],
        some (AwaitPoint.execTask ⟨7, Except.ok "payload"⟩)⟩).worker = Option.none := by
  decide

/-- C2 amended: stop cancels the worker task at whatever await point it
is suspended, including inside the in-flight task's execution: the
in-flight task is aborted by the delivered CancelledError and its pending
result is left unresolved, so its caller does not receive the task's
result. -/
theorem stop_cancels_in_flight (s : ScraperState) (t : QTask)
    (hr : s.running = true) (hw : s.worker = some (AwaitPoint.execTask t)) :
    (stop s).worker = Option.none
    ∧ (stop s).resolutions = s.resolutions := by
  unfold stop
  rw [if_pos hr]
  simp [cancelWorker, hw]

/-- C2 amended witness: stopping while task 7 is in flight kills the
worker and adds no resolution. -/
theorem stop_cancels_in_flight_witness :
    (stop ⟨true, true, [], [],
        some (AwaitPoint.execTask ⟨7, Except.ok "payload"⟩)⟩).worker = Option.none
    ∧ (stop ⟨true, true, [], [],
        some (AwaitPoint.execTask ⟨7, Except.ok "payload"⟩)⟩).resolutions = [] :=
  stop_cancels_in_flight
    ⟨true, true, [], [], some (AwaitPoint.execTask ⟨7, Except.ok "payload"⟩)⟩
    ⟨7, Except.ok "payload"⟩ rfl rfl

/-- C3 counterexample: a message dated exactly now − 24h is kept, not
excluded: at now = 0 the cutoff is -86400, and a message dated -86400
with non-empty text appears in the result, because the loop breaks only
on dates strictly older than the cutoff. -/
theorem cutoff_boundary_counterexample :
    (getTodayMessages 0 PyVal.none (PyVal.int 5) [⟨5, some "x", -86400⟩]).2.messages
      = [(5, "x")]
    ∧ (getTodayMessages 0 PyVal.none (PyVal.int 5) [⟨5, some "x", -86400⟩]).2.messages
      ≠ [] := by
  decide

/-- C3 amended: fetch-recent-messages asks the iteration primitive for at
most 100 messages starting from the call time backward, stops at the
first message strictly older than now − 24h, includes a message dated
exactly now − 24h, and on the stream now, now − 1h, now − 25h returns
exactly the first two messages in that order, never examining anything
past the now − 25h message. -/
theorem fetch_recent_window (now : Int) (name id : PyVal) (stream : List TMessage) :
    (getTodayMessages now name id stream).1.limit = 100
    ∧ (getTodayMessages now name id stream).1.offsetDate = now
    ∧ (∀ rest : List TMessage,
        (getTodayMessages 0 name id
            (⟨1, some "a", 0⟩ :: ⟨2, some "b", -3600⟩ :: ⟨3, some "c", -90000⟩ :: rest)).2.messages
          = [(1, "a"), (2, "b")])
    ∧ (∀ (m : TMessage) (t : String), m.date = now - hours24 → m.text = some t →
        t ≠ "" → (getTodayMessages now name id [m]).2.messages = [(m.id, t)]) := by
  refine ⟨rfl, rfl, ?_, ?_⟩
  · intro rest
    norm_num [getTodayMessages, collectMessages, hours24]
    decide
  · intro m t hd ht hne
    simp [getTodayMessages, collectMessages, hd, ht, hne]

/-- C3 amended witness: concrete instances of the recorded limit, the
three-message scenario, and the kept boundary message. -/
theorem fetch_recent_window_witness :
    (getTodayMessages 0 PyVal.none (PyVal.int 1) []).1.limit = 100
    ∧ (getTodayMessages 0 PyVal.none (PyVal.int 1)
        [⟨1, some "a", 0⟩, ⟨2, some "b", -3600⟩, ⟨3, some "c", -90000⟩]).2.messages
      = [(1, "a"), (2, "b")]
    ∧ (getTodayMessages 0 PyVal.none (PyVal.int 1) [⟨9, some "y", -86400⟩]).2.messages
      = [(9, "y")] :=
  ⟨(fetch_recent_window 0 PyVal.none (PyVal.int 1) []).1,
   (fetch_recent_window 0 PyVal.none (PyVal.int 1) []).2.2.1 [],
   (fetch_recent_window 0 PyVal.none (PyVal.int 1) []).2.2.2
     ⟨9, some "y", -86400⟩ "y" (by decide) rfl (by decide)⟩

/-- C7: while the queue is running and the client disconnected, every
iteration whose connect attempt fails or times out performs exactly a
connect bounded at 10 seconds followed by a fixed 5 second sleep, then
retries: for any run of consecutive failing outcomes the worker dequeues
nothing, resolves nothing, never exits, and leaves the state exactly as
it was — a connect failure only delays task execution. -/
theorem reconnect_backoff_loop (s : ScraperState) (cos : List ConnectOutcome)
    (hr : s.running = true) (hc : s.connected = false)
    (hf : ∀ co ∈ cos, co ≠ ConnectOutcome.success) :
    workerIters s cos
      = (s, cos.map fun _ =>
          ([WorkerEvent.connectAttempt 10, WorkerEvent.sleepFor 5], StepResult.retry)) := by
  induction cos with
  | nil => simp [workerIters]
  | cons co cos ih =>
    have h1 : workerIter s co
        = (s, [WorkerEvent.connectAttempt 10, WorkerEvent.sleepFor 5], StepResult.retry) := by
      cases co with
      | success => exact absurd rfl (hf _ (by simp))
      | timeout => simp [workerIter, hr, hc]
      | failure m => simp [workerIter, hr, hc]
    simp [workerIters, h1, ih (fun c hc2 => hf c (List.mem_cons_of_mem _ hc2))]

/-- C7 witness: two consecutive failing connect attempts (one timeout,
one exception) each produce the 10-second-bounded attempt and the
5-second sleep, retry without dequeuing, and leave the disconnected
running state unchanged. -/
theorem reconnect_backoff_loop_witness :
    workerIters ⟨true, false, [⟨1, Except.ok "v"⟩], [], some AwaitPoint.connecting⟩
        [ConnectOutcome.timeout, ConnectOutcome.failure "boom"]
      = (⟨true, false, [⟨1, Except.ok "v"⟩], [], some AwaitPoint.connecting⟩,
         [([WorkerEvent.connectAttempt 10, WorkerEvent.sleepFor 5], StepResult.retry),
          ([WorkerEvent.connectAttempt 10, WorkerEvent.sleepFor 5], StepResult.retry)]) :=
  reconnect_backoff_loop
    ⟨true, false, [⟨1, Except.ok "v"⟩], [], some AwaitPoint.connecting⟩
    [ConnectOutcome.timeout, ConnectOutcome.failure "boom"] rfl rfl (by decide)

end Scraper
